import Mathlib

/-
Verification of the FilmyFly Astro front-end data layer:

* the typed API client (`src/lib/api.ts`): one HTTP GET per operation,
  pass-through JSON deserialization, with a failure guard only in
  `searchMovies`;
* the dynamic sitemap generator (`sitemap.xml` endpoint): an exhaustive
  paginated fetch-and-aggregate loop over the movie-listing endpoint,
  a single unpaginated category fetch, and XML serialization with
  `escapeXml` applied to image titles and thumbnail URLs.

The remote HTTP API is modelled as an explicit parameter: every
`await fetch(...).json()` pair becomes a value of `Except String α`
(`.error msg` is a thrown JavaScript fault carrying its message,
`.ok v` the deserialized value).  The unbounded `while` loop of the
sitemap aggregator is given explicit fuel; exhausting the fuel yields
`none` (the loop has not terminated within that many iterations).
-/

set_option maxRecDepth 40000

/-! ## Data model (interfaces of `src/lib/api.ts`) -/

/-- `Pagination` from `src/lib/api.ts`. -/
structure Pagination where
  page : Nat
  limit : Nat
  total : Nat
  totalPages : Nat
  hasNextPage : Bool
  hasPrevPage : Bool
deriving DecidableEq

/-- The fields of `Movie` from `src/lib/api.ts` that the sitemap and the
claims inspect (`id`, `title`, `slug`, optional `thumbnail`); the remaining
optional metadata fields play no role in any claim and are omitted. -/
structure Movie where
  id : Nat
  title : String
  slug : String
  thumbnail : Option String := none
deriving DecidableEq

/-- The fields of `Category` from `src/lib/api.ts` used by the sitemap. -/
structure Category where
  id : Nat
  name : String
  slug : String
deriving DecidableEq

/-- `APIResponse<T>` from `src/lib/api.ts`: the uniform success/error
envelope; `data`, `error` and `pagination` are all optional. -/
structure Envelope (α : Type) where
  success : Bool
  data : Option α := none
  error : Option String := none
  pagination : Option Pagination := none
deriving DecidableEq

/-! ## `escapeXml` (sitemap module)

```js
function escapeXml(text) {
    return text
        .replace(/&/g, '&amp;')
        .replace(/</g, '&lt;')
        .replace(/>/g, '&gt;')
        .replace(/"/g, '&quot;')
        .replace(/'/g, '&apos;');
}
```
Strings are modelled as `List Char`. -/

/-- The double-quote character, written by code point. -/
def quoteChar : Char := Char.ofNat 34

/-- The apostrophe character, written by code point. -/
def aposChar : Char := Char.ofNat 39

/-- One global single-character replace, `text.replace(/c/g, rep)`. -/
def replaceAll (c : Char) (rep : List Char) (l : List Char) : List Char :=
  l.flatMap (fun x => if x = c then rep else [x])

/-- `escapeXml`: the five replaces applied in source order
(`&` first, then `<`, `>`, `"`, `'`). -/
def escapeXml (l : List Char) : List Char :=
  replaceAll aposChar "&apos;".toList
    (replaceAll quoteChar "&quot;".toList
      (replaceAll '>' "&gt;".toList
        (replaceAll '<' "&lt;".toList
          (replaceAll '&' "&amp;".toList l))))

/-- Per-character view of the composed replaces: each of the five special
characters goes to its XML entity, every other character is kept. -/
def escChar (c : Char) : List Char :=
  if c = '&' then "&amp;".toList
  else if c = '<' then "&lt;".toList
  else if c = '>' then "&gt;".toList
  else if c = quoteChar then "&quot;".toList
  else if c = aposChar then "&apos;".toList
  else [c]

lemma replaceAll_flatMap (c : Char) (rep : List Char) (l : List Char)
    (f : Char → List Char) :
    replaceAll c rep (l.flatMap f) =
      l.flatMap (fun x => replaceAll c rep (f x)) := by
  unfold replaceAll
  rw [List.flatMap_assoc]

lemma escapeXml_eq_flatMap (l : List Char) :
    escapeXml l = l.flatMap escChar := by
  unfold escapeXml
  have h : replaceAll '&' "&amp;".toList l =
      l.flatMap (fun x => replaceAll '&' "&amp;".toList [x]) := by
    unfold replaceAll
    simp
  rw [h, replaceAll_flatMap, replaceAll_flatMap, replaceAll_flatMap,
    replaceAll_flatMap]
  apply List.flatMap_congr
  intro c _
  by_cases h1 : c = '&'
  · subst h1; rfl
  by_cases h2 : c = '<'
  · subst h2; rfl
  by_cases h3 : c = '>'
  · subst h3; rfl
  by_cases h4 : c = quoteChar
  · subst h4; rfl
  by_cases h5 : c = aposChar
  · subst h5; rfl
  · simp [escChar, replaceAll, h1, h2, h3, h4, h5]

lemma escChar_no_raw (a : Char) :
    '<' ∉ escChar a ∧ '>' ∉ escChar a ∧ quoteChar ∉ escChar a ∧
      aposChar ∉ escChar a := by
  unfold escChar
  split_ifs with h1 h2 h3 h4 h5
  · subst h1; refine ⟨?_, ?_, ?_, ?_⟩ <;> decide
  · subst h2; refine ⟨?_, ?_, ?_, ?_⟩ <;> decide
  · subst h3; refine ⟨?_, ?_, ?_, ?_⟩ <;> decide
  · subst h4; refine ⟨?_, ?_, ?_, ?_⟩ <;> decide
  · subst h5; refine ⟨?_, ?_, ?_, ?_⟩ <;> decide
  · simp only [List.mem_singleton]
    exact ⟨fun h => h2 h.symm, fun h => h3 h.symm, fun h => h4 h.symm,
      fun h => h5 h.symm⟩

lemma escChar_clean (c : Char) (h1 : c ≠ '&') (h2 : c ≠ '<') (h3 : c ≠ '>')
    (h4 : c ≠ quoteChar) (h5 : c ≠ aposChar) : escChar c = [c] := by
  simp [escChar, h1, h2, h3, h4, h5]

/-- C10: for every input string the output of `escapeXml` contains no raw
`<`, `>`, `"` or `'`; and on a string containing none of the five special
characters `& < > " '`, `escapeXml` is the identity. -/
theorem escapeXml_no_raw_and_identity (l : List Char) :
    ('<' ∉ escapeXml l ∧ '>' ∉ escapeXml l ∧ quoteChar ∉ escapeXml l ∧
      aposChar ∉ escapeXml l) ∧
    ((∀ c ∈ l, c ≠ '&' ∧ c ≠ '<' ∧ c ≠ '>' ∧ c ≠ quoteChar ∧ c ≠ aposChar) →
      escapeXml l = l) := by
  rw [escapeXml_eq_flatMap]
  constructor
  · refine ⟨?_, ?_, ?_, ?_⟩ <;>
    · simp only [List.mem_flatMap]
      rintro ⟨a, _, hx⟩
      have h := escChar_no_raw a
      tauto
  · intro hcl
    induction l with
    | nil => rfl
    | cons c l ih =>
      have hc := hcl c (List.mem_cons_self c l)
      rw [List.flatMap_cons,
        escChar_clean c hc.1 hc.2.1 hc.2.2.1 hc.2.2.2.1 hc.2.2.2.2,
        ih (fun a ha => hcl a (List.mem_cons_of_mem c ha))]
      rfl

/-- Witness for C10 at concrete inputs: the hypothesis of the identity part
is discharged on a clean string. -/
theorem escapeXml_no_raw_and_identity_witness :
    escapeXml "hello-movie".toList = "hello-movie".toList :=
  (escapeXml_no_raw_and_identity "hello-movie".toList).2 (by decide)

/-! ## Sitemap aggregation loop (`fetchSitemapData`, movies part)

```js
let allMovies = [];
let page = 1;
let hasMore = true;
const limit = 500;
while (hasMore) {
    const moviesResponse = await fetch(`${API_BASE}/movies?page=${page}&limit=${limit}`);
    const moviesData = await moviesResponse.json();
    if (moviesData.success && moviesData.data && moviesData.data.length > 0) {
        allMovies = allMovies.concat(moviesData.data);
        if (moviesData.pagination && moviesData.pagination.hasNextPage) {
            page++;
        } else {
            hasMore = false;
        }
    } else {
        hasMore = false;
    }
}
```
The endpoint is a function from the page number to the outcome of
`fetch` + `json` (the fixed `limit=500` query parameter does not vary
inside the loop).  The loop is instrumented with the number of page
requests it issued, so that the "how many requests" parts of the claims
can be stated. -/

/-- The JavaScript truthiness test
`moviesData.success && moviesData.data && moviesData.data.length > 0`:
an absent `data` and a present-but-empty `data` are both rejected. -/
def envOk (e : Envelope (List Movie)) : Bool :=
  e.success && !(e.data.getD []).isEmpty

/-- The JavaScript truthiness test
`moviesData.pagination && moviesData.pagination.hasNextPage`:
a missing `pagination` object counts as "no next page". -/
def envHasNext {α : Type} (e : Envelope α) : Bool :=
  (e.pagination.map Pagination.hasNextPage).getD false

/-- The `while (hasMore)` aggregation loop, with explicit fuel
(`none` = not terminated within `fuel` iterations).  On termination it
returns the aggregated movie list together with the number of page
requests issued; a fault thrown by `fetch`/`json` is propagated as
`some (.error msg)`. -/
def fetchAllMovies (api : Nat → Except String (Envelope (List Movie))) :
    Nat → Nat → Option (Except String (List Movie × Nat))
  | 0, _ => none
  | fuel + 1, page =>
    match api page with
    | .error e => some (.error e)
    | .ok env =>
      if envOk env then
        if envHasNext env then
          match fetchAllMovies api fuel (page + 1) with
          | some (.ok (rest, n)) => some (.ok ((env.data.getD []) ++ rest, n + 1))
          | other => other
        else
          some (.ok (env.data.getD [], 1))
      else
        some (.ok ([], 1))

/-- A fault-free endpoint, wrapped into the `fetch` outcome type. -/
def pureApi (api : Nat → Envelope (List Movie)) (p : Nat) :
    Except String (Envelope (List Movie)) :=
  .ok (api p)

/-- General shape of a terminating run of the loop, started at page `s`:
pages `s, s+1, …, s+n-1` are successful, non-empty and announce a next
page; page `s+n` is the first page satisfying a stop condition.  The loop
returns the concatenation of the page data in page order (the stop page
contributing its data exactly when it is successful and non-empty) and
issues exactly `n+1` requests. -/
lemma fetchAllMovies_run (api : Nat → Envelope (List Movie)) :
    ∀ (n s fuel : Nat),
      (∀ i, i < n → envOk (api (s + i)) = true ∧ envHasNext (api (s + i)) = true) →
      (envOk (api (s + n)) = false ∨ envHasNext (api (s + n)) = false) →
      n + 1 ≤ fuel →
      fetchAllMovies (pureApi api) fuel s =
        some (.ok
          (((List.range n).map (fun i => (api (s + i)).data.getD [])).flatten ++
            (if envOk (api (s + n)) then (api (s + n)).data.getD [] else []),
          n + 1)) := by
  intro n
  induction n with
  | zero =>
    intro s fuel _ hstop hfuel
    obtain ⟨f, rfl⟩ : ∃ f, fuel = f + 1 := ⟨fuel - 1, by omega⟩
    rw [Nat.add_zero] at hstop ⊢
    simp only [fetchAllMovies, pureApi]
    rcases hstop with hstop | hstop
    · simp [hstop]
    · by_cases hok : envOk (api s)
      · simp [hok, hstop]
      · simp [hok]
  | succ n ih =>
    intro s fuel hgo hstop hfuel
    obtain ⟨f, rfl⟩ : ∃ f, fuel = f + 1 := ⟨fuel - 1, by omega⟩
    have h0 := hgo 0 (Nat.succ_pos n)
    rw [Nat.add_zero] at h0
    have hrec := ih (s + 1) f
      (fun i hi => by
        have hh := hgo (i + 1) (by omega)
        rw [show s + (i + 1) = s + 1 + i by omega] at hh
        exact hh)
      (by rwa [show s + 1 + n = s + (n + 1) by omega])
      (by omega)
    simp only [fetchAllMovies, pureApi, h0.1, h0.2, if_true, hrec]
    have hshift : (List.range n).map (fun i => (api (s + 1 + i)).data.getD []) =
        (List.range n).map ((fun i => (api (s + i)).data.getD []) ∘ Nat.succ) := by
      apply List.map_congr_left
      intro i _
      simp only [Function.comp_apply]
      rw [show s + Nat.succ i = s + 1 + i by omega]
    rw [show s + 1 + n = s + (n + 1) by omega, hshift, List.range_succ_eq_map,
      List.map_cons, List.flatten_cons, Nat.add_zero, List.map_map,
      List.append_assoc]
    norm_num

lemma chunks_flatten (l : List Movie) (limit : Nat) :
    ∀ m : Nat,
      ((List.range m).map (fun i => (l.drop (i * limit)).take limit)).flatten ++
        l.drop (m * limit) = l := by
  intro m
  induction m with
  | zero => simp
  | succ m ih =>
    rw [List.range_succ, List.map_append, List.flatten_append, List.append_assoc]
    simp only [List.map_cons, List.map_nil, List.flatten_cons, List.flatten_nil,
      List.append_nil]
    rw [show (m + 1) * limit = m * limit + limit by ring, ← List.drop_drop,
      List.take_append_drop]
    exact ih

/-- Modelled paginated endpoint over a fixed catalog: page `p` (1-based)
serves the slice `catalog[(p-1)*limit .. (p-1)*limit + limit)`, with a
pagination object announcing whether a further page exists.  This is the
"catalog of N movies served in pages of `limit`" model that claim C1
quantifies over. -/
def pagedApi (catalog : List Movie) (limit : Nat) (p : Nat) :
    Envelope (List Movie) where
  success := true
  data := some ((catalog.drop ((p - 1) * limit)).take limit)
  error := none
  pagination := some
    { page := p
      limit := limit
      total := catalog.length
      totalPages := (catalog.length + limit - 1) / limit
      hasNextPage := decide (p * limit < catalog.length)
      hasPrevPage := decide (1 < p) }

/-- C1: for every model of the movie-listing endpoint, the aggregation loop
returns the concatenation, in page order, of the data lists of consecutive
pages starting at page 1, stopping exactly at the first page whose envelope
is unsuccessful, has empty/missing data, or has no next page (that stop page
contributing its data exactly when successful and non-empty); and a catalog
of 2568 movies served in pages of 500 is aggregated completely — no
duplicates, no omissions — in exactly 6 requests. -/
theorem sitemap_aggregation_complete :
    (∀ (api : Nat → Envelope (List Movie)) (n fuel : Nat),
      (∀ i, i < n → envOk (api (1 + i)) = true ∧ envHasNext (api (1 + i)) = true) →
      (envOk (api (1 + n)) = false ∨ envHasNext (api (1 + n)) = false) →
      n + 1 ≤ fuel →
      fetchAllMovies (pureApi api) fuel 1 =
        some (.ok
          (((List.range n).map (fun i => (api (1 + i)).data.getD [])).flatten ++
            (if envOk (api (1 + n)) then (api (1 + n)).data.getD [] else []),
          n + 1))) ∧
    (∀ catalog : List Movie, catalog.length = 2568 →
      fetchAllMovies (pureApi (pagedApi catalog 500)) 6 1 =
        some (.ok (catalog, 6))) := by
  constructor
  · intro api n fuel hgo hstop hfuel
    exact fetchAllMovies_run api n 1 fuel hgo hstop hfuel
  · intro catalog hlen
    have hdata : ∀ i : Nat, (pagedApi catalog 500 (1 + i)).data.getD [] =
        (catalog.drop (i * 500)).take 500 := by
      intro i
      simp [pagedApi, show 1 + i - 1 = i by omega]
    have hok : ∀ i : Nat, i ≤ 5 → envOk (pagedApi catalog 500 (1 + i)) = true := by
      intro i hi
      have hlen2 : 0 < ((catalog.drop ((1 + i - 1) * 500)).take 500).length := by
        rw [List.length_take, List.length_drop, hlen]
        omega
      obtain ⟨a, t, hx⟩ := List.exists_cons_of_length_pos hlen2
      simp only [envOk, pagedApi, Option.getD_some, Bool.true_and, hx]
      rfl
    have hnext : ∀ i : Nat,
        envHasNext (pagedApi catalog 500 (1 + i)) =
          decide ((1 + i) * 500 < 2568) := by
      intro i
      simp [envHasNext, pagedApi, hlen]
    have h := fetchAllMovies_run (pagedApi catalog 500) 5 1 6
      (fun i hi => ⟨hok i (by omega), by rw [hnext i]; simp; omega⟩)
      (Or.inr (by rw [hnext 5]; simp))
      (by omega)
    rw [h, if_pos (hok 5 le_rfl), hdata 5]
    have htake : (catalog.drop (5 * 500)).take 500 = catalog.drop (5 * 500) := by
      apply List.take_of_length_le
      rw [List.length_drop, hlen]
      omega
    rw [htake, List.map_congr_left (fun i _ => hdata i), chunks_flatten catalog 500 5]

/-- A demonstration catalog of exactly 2568 distinct movies. -/
def demoCatalog : List Movie :=
  (List.range 2568).map (fun i => { id := i, title := "m", slug := "m" })

/-- Witness for C1: the general part applied to an endpoint that fails at
once (hypotheses discharged at `n = 0`), and the 2568-movie regression
instance applied to a concrete catalog. -/
theorem sitemap_aggregation_complete_witness :
    fetchAllMovies (pureApi (fun _ => { success := false })) 1 1 =
      some (.ok ([], 1)) ∧
    fetchAllMovies (pureApi (pagedApi demoCatalog 500)) 6 1 =
      some (.ok (demoCatalog, 6)) := by
  constructor
  · have h := sitemap_aggregation_complete.1 (fun _ => { success := false }) 0 1
      (fun i hi => absurd hi (Nat.not_lt_zero i))
      (Or.inl (by decide))
      (by omega)
    simpa [envOk] using h
  · exact sitemap_aggregation_complete.2 demoCatalog (by simp [demoCatalog])

/-- C2: if the first page request of the aggregation loop returns an
envelope with `success = false`, the loop returns the empty movie list and
issues no further request (exactly 1 request in total). -/
theorem first_page_failure_empty
    (api : Nat → Except String (Envelope (List Movie)))
    (env : Envelope (List Movie)) (fuel : Nat)
    (h1 : api 1 = .ok env) (h2 : env.success = false) :
    fetchAllMovies api (fuel + 1) 1 = some (.ok ([], 1)) := by
  simp [fetchAllMovies, h1, envOk, h2]

/-- Witness for C2 at a concrete failing endpoint. -/
theorem first_page_failure_empty_witness :
    fetchAllMovies (fun _ => .ok { success := false }) 1 1 =
      some (.ok ([], 1)) :=
  first_page_failure_empty (fun _ => .ok { success := false })
    { success := false } 0 rfl rfl

/-- C9: an envelope with `success = true` and non-empty data but no
pagination object at all is appended, and the loop then terminates without
a further request — a missing `pagination` field behaves like
`hasNextPage = false`, not like a fault. -/
theorem missing_pagination_stops
    (api : Nat → Except String (Envelope (List Movie)))
    (env : Envelope (List Movie)) (d : List Movie) (fuel : Nat)
    (h1 : api 1 = .ok env) (hs : env.success = true) (hd : env.data = some d)
    (hne : d ≠ []) (hp : env.pagination = none) :
    fetchAllMovies api (fuel + 1) 1 = some (.ok (d, 1)) := by
  have hok : envOk env = true := by
    simp [envOk, hs, hd, hne]
  have hnext : envHasNext env = false := by
    simp [envHasNext, hp]
  simp [fetchAllMovies, h1, hok, hnext, hd]

/-- Witness for C9 at a concrete envelope carrying one movie and no
pagination object. -/
theorem missing_pagination_stops_witness :
    fetchAllMovies
      (fun _ => .ok { success := true, data := some [{ id := 1, title := "t", slug := "s" }] })
      1 1 =
      some (.ok ([{ id := 1, title := "t", slug := "s" }], 1)) :=
  missing_pagination_stops _ _ _ 0 rfl rfl rfl (by simp) rfl

/-! ## `fetchSitemapData`: movies loop + single category fetch + catch-all

```js
async function fetchSitemapData() {
    try {
        /* pagination loop, see fetchAllMovies */
        const categoriesResponse = await fetch(`${API_BASE}/categories`);
        const categoriesData = await categoriesResponse.json();
        const categories = categoriesData.success ? categoriesData.data : [];
        return { movies: allMovies, categories };
    } catch (error) {
        return { movies: [], categories: [] };
    }
}
```
When `categoriesData.success` is true but `categoriesData.data` is absent,
the returned `categories` is `undefined`; that is recorded as `none` in
the `categories` field below. -/

/-- The record returned by `fetchSitemapData`.  `categories = none` models
the JavaScript value `undefined` (successful category envelope carrying no
`data` field). -/
structure SitemapData where
  movies : List Movie
  categories : Option (List Category)
deriving DecidableEq

/-- `fetchSitemapData`: runs the aggregation loop, then the single
unpaginated category fetch; any fault thrown by either fetch is caught and
degrades the whole result to empty movies AND empty categories.  `none` =
the movies loop did not terminate within `fuel` iterations. -/
def fetchSitemapData (moviesApi : Nat → Except String (Envelope (List Movie)))
    (catApi : Except String (Envelope (List Category))) (fuel : Nat) :
    Option SitemapData :=
  match fetchAllMovies moviesApi fuel 1 with
  | none => none
  | some (.error _) => some { movies := [], categories := some [] }
  | some (.ok (ms, _)) =>
    match catApi with
    | .error _ => some { movies := [], categories := some [] }
    | .ok env =>
      some { movies := ms
             categories := if env.success then env.data else some [] }

/-- A one-movie demonstration envelope: successful, one movie, no next
page. -/
def oneMovieEnv : Envelope (List Movie) :=
  { success := true
    data := some [{ id := 7, title := "t", slug := "s" }] }

/-- Counterexample to C6 as stated: the movie fetch succeeds with one movie
(the loop, run alone, returns it), yet a thrown fault on the category fetch
makes `fetchSitemapData` discard the successfully fetched movies as well —
the failure does NOT degrade only the category section. -/
theorem category_fault_wipes_movies_cex :
    fetchAllMovies (fun _ => .ok oneMovieEnv) 1 1 =
      some (.ok ([{ id := 7, title := "t", slug := "s" }], 1)) ∧
    fetchSitemapData (fun _ => .ok oneMovieEnv) (.error "network down") 1 =
      some { movies := [], categories := some [] } ∧
    ([] : List Movie) ≠ [{ id := 7, title := "t", slug := "s" }] := by
  refine ⟨rfl, rfl, by decide⟩

/-- C6 (amended): where "failure" means an envelope with `success = false`
(not a thrown fault): (a) an unsuccessful category envelope degrades only
the category section to `[]`, keeping the aggregated movies; (b) an
unsuccessful first movie page degrades only the movie section to `[]`,
keeping the categories from a successful category fetch; (c) a thrown
fault during either fetch degrades both sections to `[]`, while a
`SitemapData` record is still produced. -/
theorem fetch_failure_degrades_sections
    (moviesApi : Nat → Except String (Envelope (List Movie)))
    (catEnv : Envelope (List Category)) (ms : List Movie)
    (n fuel : Nat) (e : String) :
    (fetchAllMovies moviesApi fuel 1 = some (.ok (ms, n)) →
      catEnv.success = false →
      fetchSitemapData moviesApi (.ok catEnv) fuel =
        some { movies := ms, categories := some [] }) ∧
    (∀ env : Envelope (List Movie), moviesApi 1 = .ok env →
      env.success = false →
      fetchSitemapData moviesApi (.ok catEnv) (fuel + 1) =
        some { movies := []
               categories := if catEnv.success then catEnv.data else some [] }) ∧
    (fetchSitemapData moviesApi (.error e) (fuel + 1) = none ∨
      fetchSitemapData moviesApi (.error e) (fuel + 1) =
        some { movies := [], categories := some [] }) ∧
    (moviesApi 1 = .error e →
      fetchSitemapData moviesApi (.ok catEnv) (fuel + 1) =
        some { movies := [], categories := some [] }) := by
  refine ⟨?_, ?_, ?_, ?_⟩
  · intro hloop hcat
    simp [fetchSitemapData, hloop, hcat]
  · intro env h1 hs
    have hloop := first_page_failure_empty moviesApi env fuel h1 hs
    simp [fetchSitemapData, hloop]
  · rcases hm : fetchAllMovies moviesApi (fuel + 1) 1 with _ | r
    · exact Or.inl (by simp [fetchSitemapData, hm])
    · rcases r with err | ok
      · exact Or.inr (by simp [fetchSitemapData, hm])
      · exact Or.inr (by rcases ok with ⟨ms', n'⟩; simp [fetchSitemapData, hm])
  · intro h1
    have hloop : fetchAllMovies moviesApi (fuel + 1) 1 = some (.error e) := by
      simp [fetchAllMovies, h1]
    simp [fetchSitemapData, hloop]

/-- Witness for the amended C6, at concrete endpoints: an unsuccessful
category envelope keeps the fetched movie, an unsuccessful movie envelope
keeps the categories, and thrown faults empty both sections. -/
theorem fetch_failure_degrades_sections_witness :
    fetchSitemapData (fun _ => .ok oneMovieEnv) (.ok { success := false }) 1 =
      some { movies := [{ id := 7, title := "t", slug := "s" }],
             categories := some [] } ∧
    fetchSitemapData (fun _ => .ok { success := false })
        (.ok { success := true, data := some [{ id := 3, name := "n", slug := "c" }] }) 1 =
      some { movies := []
             categories := some [{ id := 3, name := "n", slug := "c" }] } ∧
    fetchSitemapData (fun _ => .ok oneMovieEnv) (.error "boom") 1 =
      some { movies := [], categories := some [] } := by
  have h1 := (fetch_failure_degrades_sections (fun _ => .ok oneMovieEnv)
    { success := false } [{ id := 7, title := "t", slug := "s" }] 1 1 "boom").1
    rfl rfl
  have h2 := ((fetch_failure_degrades_sections (fun _ => .ok { success := false })
    { success := true, data := some [{ id := 3, name := "n", slug := "c" }] }
    [] 1 0 "boom").2.1) { success := false } rfl rfl
  have h3 := (fetch_failure_degrades_sections (fun _ => .ok oneMovieEnv)
    { success := false } [] 1 0 "boom").2.2.1
  refine ⟨h1, by simpa using h2, ?_⟩
  rcases h3 with h3 | h3
  · exact absurd h3 (by decide)
  · exact h3

/-! ## A small XML well-formedness checker

Used to state "the emitted document parses as well-formed XML".  The
checker is a character-level state machine over the document: it tracks a
stack of open element names, requires every close tag to match the
innermost open tag, accepts an XML declaration / processing instruction
`<? … ?>`, and inside character data accepts `&` only when it starts one
of the five named entities produced by `escapeXml`.  It also records, in
document order, the name of every element that is opened (self-closing
elements included), which is what the entry-counting claims are about. -/

/-- Scanner mode. -/
inductive XMode where
  | text
  | tagStart
  | openName (acc : List Char)
  | openRest (name : List Char)
  | selfSlash (name : List Char)
  | closeName (acc : List Char)
  | piBody
  | piQ
  | entAmp (acc : List Char)
deriving DecidableEq

/-- Scanner state: current mode, stack of open element names, and the
names of all elements opened so far, in document order. -/
structure XState where
  mode : XMode
  stack : List (List Char)
  opens : List (List Char)
deriving DecidableEq

/-- The five entity names accepted in character data. -/
def entityNames : List (List Char) :=
  ["amp".toList, "lt".toList, "gt".toList, "quot".toList, "apos".toList]

/-- One scanner step; `none` = the document is malformed at this
character. -/
def xstep (st : XState) (c : Char) : Option XState :=
  match st.mode with
  | .text =>
    if c = '<' then some { st with mode := .tagStart }
    else if c = '&' then some { st with mode := .entAmp [] }
    else some st
  | .entAmp acc =>
    if c = ';' then
      if acc ∈ entityNames then some { st with mode := .text } else none
    else if c = '<' then none
    else if c = '&' then none
    else some { st with mode := .entAmp (acc ++ [c]) }
  | .tagStart =>
    if c = '/' then some { st with mode := .closeName [] }
    else if c = '?' then some { st with mode := .piBody }
    else if c = '>' then none
    else if c = '<' then none
    else if c = ' ' then none
    else some { st with mode := .openName [c] }
  | .openName acc =>
    if c = '>' then
      some { mode := .text, stack := acc :: st.stack, opens := st.opens ++ [acc] }
    else if c = '/' then some { st with mode := .selfSlash acc }
    else if c = ' ' then some { st with mode := .openRest acc }
    else if c = '\n' then some { st with mode := .openRest acc }
    else if c = '<' then none
    else some { st with mode := .openName (acc ++ [c]) }
  | .openRest name =>
    if c = '>' then
      some { mode := .text, stack := name :: st.stack, opens := st.opens ++ [name] }
    else if c = '/' then some { st with mode := .selfSlash name }
    else if c = '<' then none
    else some st
  | .selfSlash name =>
    if c = '>' then some { st with mode := .text, opens := st.opens ++ [name] }
    else if c = '<' then none
    else some { st with mode := .openRest name }
  | .closeName acc =>
    if c = '>' then
      match st.stack with
      | top :: rest =>
        if top = acc then some { st with mode := .text, stack := rest } else none
      | [] => none
    else if c = '<' then none
    else some { st with mode := .closeName (acc ++ [c]) }
  | .piBody =>
    if c = '?' then some { st with mode := .piQ }
    else if c = '<' then none
    else some st
  | .piQ =>
    if c = '>' then some { st with mode := .text }
    else if c = '?' then some st
    else if c = '<' then none
    else some { st with mode := .piBody }

/-- Run the scanner over a character list. -/
def runX (st : XState) (l : List Char) : Option XState :=
  l.foldlM xstep st

/-- The scanner's verdict: the whole document scans without error, ends in
character-data mode, and every element has been closed. -/
def xmlWellFormed (l : List Char) : Bool :=
  match runX { mode := .text, stack := [], opens := [] } l with
  | some { mode := .text, stack := [], opens := _ } => true
  | _ => false

/-- The opened-element names of a document that scans successfully. -/
def xmlOpens (l : List Char) : Option (List (List Char)) :=
  match runX { mode := .text, stack := [], opens := [] } l with
  | some { mode := .text, stack := [], opens := o } => some o
  | _ => none

lemma runX_append (st : XState) (a b : List Char) :
    runX st (a ++ b) = (runX st a).bind (fun st' => runX st' b) := by
  unfold runX
  rw [List.foldlM_append]
  rfl

/-- Character data free of `&` and `<` leaves the scanner state unchanged. -/
lemma runX_text (l : List Char) (h : ∀ c ∈ l, c ≠ '&' ∧ c ≠ '<')
    (s o : List (List Char)) :
    runX { mode := .text, stack := s, opens := o } l =
      some { mode := .text, stack := s, opens := o } := by
  induction l with
  | nil => rfl
  | cons c l ih =>
    have hc := h c (List.mem_cons_self c l)
    show (xstep { mode := .text, stack := s, opens := o } c).bind _ = _
    simp only [xstep, if_neg hc.2, if_neg hc.1, Option.bind_some]
    exact ih (fun a ha => h a (List.mem_cons_of_mem c ha))

/-- Each escaped character scans as plain character data: the scanner
passes through an entity (or a plain clean character) and returns to the
same state. -/
lemma runX_escChar (c : Char) (s o : List (List Char)) :
    runX { mode := .text, stack := s, opens := o } (escChar c) =
      some { mode := .text, stack := s, opens := o } := by
  by_cases h1 : c = '&'
  · subst h1; rfl
  by_cases h2 : c = '<'
  · subst h2; rfl
  by_cases h3 : c = '>'
  · subst h3; rfl
  by_cases h4 : c = quoteChar
  · subst h4; rfl
  by_cases h5 : c = aposChar
  · subst h5; rfl
  · rw [escChar_clean c h1 h2 h3 h4 h5]
    show (xstep { mode := .text, stack := s, opens := o } c).bind _ = _
    simp only [xstep, if_neg h2, if_neg h1, Option.bind_some]
    rfl

/-- Escaped text (any input) scans as plain character data. -/
lemma runX_escaped (l : List Char) (s o : List (List Char)) :
    runX { mode := .text, stack := s, opens := o } (escapeXml l) =
      some { mode := .text, stack := s, opens := o } := by
  rw [escapeXml_eq_flatMap]
  induction l with
  | nil => rfl
  | cons c l ih =>
    rw [List.flatMap_cons, runX_append, runX_escChar]
    exact ih

/-! ## Sitemap XML serialization (`GET` of the sitemap endpoint)

The document is assembled exactly as the source builds the `sitemap`
string: XML declaration + `<urlset …>` header, one homepage `<url>`, six
static-page `<url>`s, one `<url>` per category
(`/category/{id}/{slug}`), one `<url>` per movie (`/{slug}`, with an
`<image:image>` block iff the movie's `thumbnail` is truthy), and the
closing `</urlset>`.  `baseUrl` and `currentDate` are the two
generation-time strings interpolated into every entry. -/

/-- JavaScript truthiness of an optional string field
(`if (movie.thumbnail)`): absent and empty are both falsy. -/
def truthyStr : Option String → Bool
  | none => false
  | some s => !s.isEmpty

/-- The fixed XML declaration and `<urlset …>` open tag. -/
def sitemapHeader : List Char :=
  ("<?xml version=\"1.0\" encoding=\"UTF-8\"?>\n" ++
    "<urlset xmlns=\"http://www.sitemaps.org/schemas/sitemap/0.9\"\n" ++
    "        xmlns:image=\"http://www.google.com/schemas/sitemap-image/1.1\"\n" ++
    "        xmlns:news=\"http://www.google.com/schemas/sitemap-news/0.9\">\n").toList

/-- The homepage entry. -/
def rootBlock (baseUrl currentDate : List Char) : List Char :=
  "  <url>\n    <loc>".toList ++ baseUrl ++
    "/</loc>\n    <lastmod>".toList ++ currentDate ++
    ("</lastmod>\n    <changefreq>daily</changefreq>\n" ++
      "    <priority>1.0</priority>\n  </url>\n").toList

/-- One static-page description (`path`, `priority`, `changefreq`). -/
structure StaticEntry where
  path : String
  priority : String
  changefreq : String

/-- The fixed list of six static pages. -/
def staticPages : List StaticEntry :=
  [{ path := "/page/privacy-policy", priority := "0.7", changefreq := "monthly" },
   { path := "/page/contact-us", priority := "0.7", changefreq := "monthly" },
   { path := "/page/about-us", priority := "0.7", changefreq := "monthly" },
   { path := "/page/dmca", priority := "0.7", changefreq := "monthly" },
   { path := "/page/how-to-download-movie", priority := "0.8", changefreq := "monthly" },
   { path := "/search", priority := "0.6", changefreq := "weekly" }]

/-- One static-page entry. -/
def staticBlock (baseUrl currentDate : List Char) (p : StaticEntry) : List Char :=
  "  <url>\n    <loc>".toList ++ baseUrl ++ p.path.toList ++
    "</loc>\n    <lastmod>".toList ++ currentDate ++
    "</lastmod>\n    <changefreq>".toList ++ p.changefreq.toList ++
    "</changefreq>\n    <priority>".toList ++ p.priority.toList ++
    "</priority>\n  </url>\n".toList

/-- One category entry (`/category/{id}/{slug}`). -/
def categoryBlock (baseUrl currentDate : List Char) (c : Category) : List Char :=
  "  <url>\n    <loc>".toList ++ baseUrl ++ "/category/".toList ++
    (Nat.repr c.id).toList ++ "/".toList ++ c.slug.toList ++
    "</loc>\n    <lastmod>".toList ++ currentDate ++
    ("</lastmod>\n    <changefreq>weekly</changefreq>\n" ++
      "    <priority>0.9</priority>\n  </url>\n").toList

/-- The `<image:image>` block of a movie with a truthy thumbnail:
`escapeXml` is applied to the thumbnail URL and to the title. -/
def imageBlock (m : Movie) : List Char :=
  "\n    <image:image>\n      <image:loc>".toList ++
    escapeXml (m.thumbnail.getD "").toList ++
    "</image:loc>\n      <image:title>".toList ++
    escapeXml m.title.toList ++
    "</image:title>\n    </image:image>".toList

/-- One movie entry (`/{slug}`), with the image block iff the thumbnail is
truthy.  The slug is interpolated raw — NOT through `escapeXml`. -/
def movieBlock (baseUrl currentDate : List Char) (m : Movie) : List Char :=
  "  <url>\n    <loc>".toList ++ baseUrl ++ "/".toList ++ m.slug.toList ++
    "</loc>\n    <lastmod>".toList ++ currentDate ++
    ("</lastmod>\n    <changefreq>weekly</changefreq>\n" ++
      "    <priority>0.8</priority>").toList ++
    (if truthyStr m.thumbnail then imageBlock m else []) ++
    "\n  </url>\n".toList

/-- The whole document. -/
def buildSitemap (baseUrl currentDate : List Char)
    (categories : List Category) (movies : List Movie) : List Char :=
  sitemapHeader ++ rootBlock baseUrl currentDate ++
    (staticPages.map (staticBlock baseUrl currentDate)).flatten ++
    (categories.map (categoryBlock baseUrl currentDate)).flatten ++
    (movies.map (movieBlock baseUrl currentDate)).flatten ++
    "</urlset>".toList

/-- `siteUrl.replace(/\/$/, '')`: drop one trailing slash (if any). -/
def stripTrailingSlash (s : String) : String :=
  if s.toList.getLast? = some '/' then ⟨s.toList.dropLast⟩ else s

/-- The HTTP response assembled by the endpoint. -/
structure SitemapResponse where
  status : Nat
  contentType : String
  cacheControl : String
  body : List Char
deriving DecidableEq

/-- The sitemap `GET` endpoint.  `fetchSitemapData` swallows fetch faults,
but when the category envelope was successful with an absent `data` field
the JavaScript `categories` binding is `undefined` and the later
`categories.forEach(...)` throws a TypeError that nothing catches: that is
the `.error` outcome.  Outer `none` = the movies loop did not terminate
within `fuel`. -/
def sitemapGET (moviesApi : Nat → Except String (Envelope (List Movie)))
    (catApi : Except String (Envelope (List Category)))
    (siteUrl currentDate : String) (fuel : Nat) :
    Option (Except String SitemapResponse) :=
  match fetchSitemapData moviesApi catApi fuel with
  | none => none
  | some d =>
    match d.categories with
    | none => some (.error "TypeError: categories.forEach is not a function")
    | some cats =>
      some (.ok
        { status := 200
          contentType := "application/xml; charset=utf-8"
          cacheControl := "public, max-age=3600"
          body := buildSitemap (stripTrailingSlash siteUrl).toList
            currentDate.toList cats d.movies })

lemma optSomeBind {α β : Type} (a : α) (f : α → Option β) :
    (some a).bind f = f a := rfl

/-- Names of the five elements every `<url>` entry opens. -/
def urlOpens : List (List Char) :=
  ["url".toList, "loc".toList, "lastmod".toList, "changefreq".toList,
   "priority".toList]

/-- Names of the three elements an `<image:image>` block opens. -/
def imageOpens : List (List Char) :=
  ["image:image".toList, "image:loc".toList, "image:title".toList]

/-- Elements opened by one movie entry. -/
def movieOpens (m : Movie) : List (List Char) :=
  urlOpens ++ (if truthyStr m.thumbnail then imageOpens else [])

lemma runX_header (s o : List (List Char)) :
    runX { mode := .text, stack := s, opens := o } sitemapHeader =
      some { mode := .text, stack := "urlset".toList :: s,
             opens := o ++ ["urlset".toList] } := rfl

lemma runX_rootBlock (b d : List Char) (hb : ∀ c ∈ b, c ≠ '&' ∧ c ≠ '<')
    (hd : ∀ c ∈ d, c ≠ '&' ∧ c ≠ '<') (s o : List (List Char)) :
    runX ⟨.text, s, o⟩ (rootBlock b d) = some ⟨.text, s, o ++ urlOpens⟩ := by
  have h1 : ∀ o1, runX ⟨XMode.text, s, o1⟩ "  <url>\n    <loc>".toList =
      some ⟨XMode.text, "loc".toList :: "url".toList :: s,
        o1 ++ ["url".toList] ++ ["loc".toList]⟩ := fun _ => rfl
  have h2 : ∀ o2, runX ⟨XMode.text, "loc".toList :: "url".toList :: s, o2⟩
      "/</loc>\n    <lastmod>".toList =
      some ⟨XMode.text, "lastmod".toList :: "url".toList :: s,
        o2 ++ ["lastmod".toList]⟩ := fun _ => rfl
  have h3 : ∀ o3, runX ⟨XMode.text, "lastmod".toList :: "url".toList :: s, o3⟩
      ("</lastmod>\n    <changefreq>daily</changefreq>\n" ++
        "    <priority>1.0</priority>\n  </url>\n").toList =
      some ⟨XMode.text, s,
        o3 ++ ["changefreq".toList] ++ ["priority".toList]⟩ := fun _ => rfl
  rw [rootBlock, runX_append, runX_append, runX_append, runX_append, h1,
    optSomeBind, runX_text b hb, optSomeBind, h2, optSomeBind,
    runX_text d hd, optSomeBind, h3]
  simp [urlOpens, List.append_assoc]

lemma digitCharMod_clean (n : Nat) :
    Nat.digitChar (n % 10) ≠ '&' ∧ Nat.digitChar (n % 10) ≠ '<' := by
  have h : n % 10 < 10 := Nat.mod_lt _ (by norm_num)
  have hall : ∀ k, k < 10 → Nat.digitChar k ≠ '&' ∧ Nat.digitChar k ≠ '<' := by
    decide
  exact hall _ h

lemma toDigitsCore_clean :
    ∀ (fuel n : Nat) (ds : List Char),
      (∀ c ∈ ds, c ≠ '&' ∧ c ≠ '<') →
      ∀ c ∈ Nat.toDigitsCore 10 fuel n ds, c ≠ '&' ∧ c ≠ '<' := by
  intro fuel
  induction fuel with
  | zero => intro n ds h c hc; exact h c hc
  | succ fuel ih =>
    intro n ds h c hc
    simp only [Nat.toDigitsCore] at hc
    split at hc
    · rcases List.mem_cons.mp hc with hc | hc
      · subst hc; exact digitCharMod_clean n
      · exact h c hc
    · refine ih (n / 10) (Nat.digitChar (n % 10) :: ds) ?_ c hc
      intro a ha
      rcases List.mem_cons.mp ha with ha | ha
      · subst ha; exact digitCharMod_clean n
      · exact h a ha

/-- The decimal rendering of a natural number contains neither `&` nor
`<`. -/
lemma natRepr_clean (n : Nat) :
    ∀ c ∈ (Nat.repr n).toList, c ≠ '&' ∧ c ≠ '<' := by
  have h : (Nat.repr n).toList = Nat.toDigits 10 n := rfl
  rw [h, Nat.toDigits]
  exact toDigitsCore_clean (n + 1) n [] (by simp)

lemma runX_staticBlock (b d : List Char) (hb : ∀ c ∈ b, c ≠ '&' ∧ c ≠ '<')
    (hd : ∀ c ∈ d, c ≠ '&' ∧ c ≠ '<') (p : StaticEntry)
    (hpath : ∀ c ∈ p.path.toList, c ≠ '&' ∧ c ≠ '<')
    (hcf : ∀ c ∈ p.changefreq.toList, c ≠ '&' ∧ c ≠ '<')
    (hpr : ∀ c ∈ p.priority.toList, c ≠ '&' ∧ c ≠ '<')
    (s o : List (List Char)) :
    runX ⟨.text, s, o⟩ (staticBlock b d p) =
      some ⟨.text, s, o ++ urlOpens⟩ := by
  have h1 : ∀ o1, runX ⟨XMode.text, s, o1⟩ "  <url>\n    <loc>".toList =
      some ⟨XMode.text, "loc".toList :: "url".toList :: s,
        o1 ++ ["url".toList] ++ ["loc".toList]⟩ := fun _ => rfl
  have h2 : ∀ o2, runX ⟨XMode.text, "loc".toList :: "url".toList :: s, o2⟩
      "</loc>\n    <lastmod>".toList =
      some ⟨XMode.text, "lastmod".toList :: "url".toList :: s,
        o2 ++ ["lastmod".toList]⟩ := fun _ => rfl
  have h3 : ∀ o3, runX ⟨XMode.text, "lastmod".toList :: "url".toList :: s, o3⟩
      "</lastmod>\n    <changefreq>".toList =
      some ⟨XMode.text, "changefreq".toList :: "url".toList :: s,
        o3 ++ ["changefreq".toList]⟩ := fun _ => rfl
  have h4 : ∀ o4, runX ⟨XMode.text, "changefreq".toList :: "url".toList :: s, o4⟩
      "</changefreq>\n    <priority>".toList =
      some ⟨XMode.text, "priority".toList :: "url".toList :: s,
        o4 ++ ["priority".toList]⟩ := fun _ => rfl
  have h5 : ∀ o5, runX ⟨XMode.text, "priority".toList :: "url".toList :: s, o5⟩
      "</priority>\n  </url>\n".toList =
      some ⟨XMode.text, s, o5⟩ := fun _ => rfl
  rw [staticBlock, runX_append, runX_append, runX_append, runX_append,
    runX_append, runX_append, runX_append, runX_append, runX_append, h1,
    optSomeBind, runX_text b hb, optSomeBind, runX_text p.path.toList hpath,
    optSomeBind, h2, optSomeBind, runX_text d hd, optSomeBind, h3,
    optSomeBind, runX_text p.changefreq.toList hcf, optSomeBind, h4,
    optSomeBind, runX_text p.priority.toList hpr, optSomeBind, h5]
  simp [urlOpens, List.append_assoc]

lemma runX_categoryBlock (b d : List Char) (hb : ∀ c ∈ b, c ≠ '&' ∧ c ≠ '<')
    (hd : ∀ c ∈ d, c ≠ '&' ∧ c ≠ '<') (c : Category)
    (hslug : ∀ ch ∈ c.slug.toList, ch ≠ '&' ∧ ch ≠ '<')
    (s o : List (List Char)) :
    runX ⟨.text, s, o⟩ (categoryBlock b d c) =
      some ⟨.text, s, o ++ urlOpens⟩ := by
  have h1 : ∀ o1, runX ⟨XMode.text, s, o1⟩ "  <url>\n    <loc>".toList =
      some ⟨XMode.text, "loc".toList :: "url".toList :: s,
        o1 ++ ["url".toList] ++ ["loc".toList]⟩ := fun _ => rfl
  have hs1 : ∀ s1 o1, runX ⟨XMode.text, s1, o1⟩ "/category/".toList =
      some ⟨XMode.text, s1, o1⟩ := fun _ _ => rfl
  have hs2 : ∀ s1 o1, runX ⟨XMode.text, s1, o1⟩ "/".toList =
      some ⟨XMode.text, s1, o1⟩ := fun _ _ => rfl
  have h2 : ∀ o2, runX ⟨XMode.text, "loc".toList :: "url".toList :: s, o2⟩
      "</loc>\n    <lastmod>".toList =
      some ⟨XMode.text, "lastmod".toList :: "url".toList :: s,
        o2 ++ ["lastmod".toList]⟩ := fun _ => rfl
  have h3 : ∀ o3, runX ⟨XMode.text, "lastmod".toList :: "url".toList :: s, o3⟩
      ("</lastmod>\n    <changefreq>weekly</changefreq>\n" ++
        "    <priority>0.9</priority>\n  </url>\n").toList =
      some ⟨XMode.text, s,
        o3 ++ ["changefreq".toList] ++ ["priority".toList]⟩ := fun _ => rfl
  rw [categoryBlock, runX_append, runX_append, runX_append, runX_append,
    runX_append, runX_append, runX_append, runX_append, h1, optSomeBind,
    runX_text b hb,
    optSomeBind, hs1, optSomeBind, runX_text (Nat.repr c.id).toList
      (natRepr_clean c.id), optSomeBind, hs2, optSomeBind,
    runX_text c.slug.toList hslug, optSomeBind, h2, optSomeBind,
    runX_text d hd, optSomeBind, h3]
  simp [urlOpens, List.append_assoc]

lemma runX_imageBlock (m : Movie) (s o : List (List Char)) :
    runX ⟨.text, s, o⟩ (imageBlock m) = some ⟨.text, s, o ++ imageOpens⟩ := by
  have h1 : ∀ o1, runX ⟨XMode.text, s, o1⟩
      "\n    <image:image>\n      <image:loc>".toList =
      some ⟨XMode.text, "image:loc".toList :: "image:image".toList :: s,
        o1 ++ ["image:image".toList] ++ ["image:loc".toList]⟩ := fun _ => rfl
  have h2 : ∀ o2, runX
      ⟨XMode.text, "image:loc".toList :: "image:image".toList :: s, o2⟩
      "</image:loc>\n      <image:title>".toList =
      some ⟨XMode.text, "image:title".toList :: "image:image".toList :: s,
        o2 ++ ["image:title".toList]⟩ := fun _ => rfl
  have h3 : ∀ o3, runX
      ⟨XMode.text, "image:title".toList :: "image:image".toList :: s, o3⟩
      "</image:title>\n    </image:image>".toList =
      some ⟨XMode.text, s, o3⟩ := fun _ => rfl
  rw [imageBlock, runX_append, runX_append, runX_append, runX_append, h1,
    optSomeBind, runX_escaped, optSomeBind, h2, optSomeBind, runX_escaped,
    optSomeBind, h3]
  simp [imageOpens, List.append_assoc]

lemma runX_movieBlock (b d : List Char) (hb : ∀ c ∈ b, c ≠ '&' ∧ c ≠ '<')
    (hd : ∀ c ∈ d, c ≠ '&' ∧ c ≠ '<') (m : Movie)
    (hslug : ∀ ch ∈ m.slug.toList, ch ≠ '&' ∧ ch ≠ '<')
    (s o : List (List Char)) :
    runX ⟨.text, s, o⟩ (movieBlock b d m) =
      some ⟨.text, s, o ++ movieOpens m⟩ := by
  have h1 : ∀ o1, runX ⟨XMode.text, s, o1⟩ "  <url>\n    <loc>".toList =
      some ⟨XMode.text, "loc".toList :: "url".toList :: s,
        o1 ++ ["url".toList] ++ ["loc".toList]⟩ := fun _ => rfl
  have hs2 : ∀ s1 o1, runX ⟨XMode.text, s1, o1⟩ "/".toList =
      some ⟨XMode.text, s1, o1⟩ := fun _ _ => rfl
  have h2 : ∀ o2, runX ⟨XMode.text, "loc".toList :: "url".toList :: s, o2⟩
      "</loc>\n    <lastmod>".toList =
      some ⟨XMode.text, "lastmod".toList :: "url".toList :: s,
        o2 ++ ["lastmod".toList]⟩ := fun _ => rfl
  have h3 : ∀ o3, runX ⟨XMode.text, "lastmod".toList :: "url".toList :: s, o3⟩
      ("</lastmod>\n    <changefreq>weekly</changefreq>\n" ++
        "    <priority>0.8</priority>").toList =
      some ⟨XMode.text, "url".toList :: s,
        o3 ++ ["changefreq".toList] ++ ["priority".toList]⟩ := fun _ => rfl
  have h4 : ∀ o4, runX ⟨XMode.text, "url".toList :: s, o4⟩
      "\n  </url>\n".toList = some ⟨XMode.text, s, o4⟩ := fun _ => rfl
  by_cases ht : truthyStr m.thumbnail
  · rw [movieBlock, if_pos ht, runX_append, runX_append, runX_append,
      runX_append, runX_append, runX_append, runX_append, runX_append, h1,
      optSomeBind,
      runX_text b hb, optSomeBind, hs2, optSomeBind,
      runX_text m.slug.toList hslug, optSomeBind, h2, optSomeBind,
      runX_text d hd, optSomeBind, h3, optSomeBind, runX_imageBlock,
      optSomeBind, h4]
    simp [movieOpens, urlOpens, imageOpens, ht, List.append_assoc]
  · rw [movieBlock, if_neg ht, List.append_nil, runX_append, runX_append,
      runX_append, runX_append, runX_append, runX_append, runX_append, h1,
      optSomeBind,
      runX_text b hb, optSomeBind, hs2, optSomeBind,
      runX_text m.slug.toList hslug, optSomeBind, h2, optSomeBind,
      runX_text d hd, optSomeBind, h3, optSomeBind, h4]
    simp [movieOpens, urlOpens, ht, List.append_assoc]

lemma runX_staticList (b d : List Char) (hb : ∀ c ∈ b, c ≠ '&' ∧ c ≠ '<')
    (hd : ∀ c ∈ d, c ≠ '&' ∧ c ≠ '<') (s o : List (List Char)) :
    runX ⟨.text, s, o⟩ ((staticPages.map (staticBlock b d)).flatten) =
      some ⟨.text, s, o ++ (staticPages.map (fun _ => urlOpens)).flatten⟩ := by
  have hnil : ∀ st : XState, runX st [] = some st := fun _ => rfl
  simp only [staticPages, List.map_cons, List.map_nil, List.flatten_cons,
    List.flatten_nil]
  rw [runX_append,
    runX_staticBlock b d hb hd _ (by decide) (by decide) (by decide),
    optSomeBind, runX_append,
    runX_staticBlock b d hb hd _ (by decide) (by decide) (by decide),
    optSomeBind, runX_append,
    runX_staticBlock b d hb hd _ (by decide) (by decide) (by decide),
    optSomeBind, runX_append,
    runX_staticBlock b d hb hd _ (by decide) (by decide) (by decide),
    optSomeBind, runX_append,
    runX_staticBlock b d hb hd _ (by decide) (by decide) (by decide),
    optSomeBind, runX_append,
    runX_staticBlock b d hb hd _ (by decide) (by decide) (by decide),
    optSomeBind, hnil]
  simp [List.append_assoc]

lemma runX_categoryList (b d : List Char) (hb : ∀ c ∈ b, c ≠ '&' ∧ c ≠ '<')
    (hd : ∀ c ∈ d, c ≠ '&' ∧ c ≠ '<') (cats : List Category)
    (hcats : ∀ c ∈ cats, ∀ ch ∈ c.slug.toList, ch ≠ '&' ∧ ch ≠ '<') :
    ∀ s o, runX ⟨.text, s, o⟩ ((cats.map (categoryBlock b d)).flatten) =
      some ⟨.text, s, o ++ (cats.map (fun _ => urlOpens)).flatten⟩ := by
  induction cats with
  | nil =>
    intro s o
    simp only [List.map_nil, List.flatten_nil, List.append_nil]
    rfl
  | cons c cs ih =>
    intro s o
    simp only [List.map_cons, List.flatten_cons]
    rw [runX_append,
      runX_categoryBlock b d hb hd c (hcats c (List.mem_cons_self c cs)),
      optSomeBind, ih (fun a ha => hcats a (List.mem_cons_of_mem c ha))]
    simp [List.append_assoc]

lemma runX_movieList (b d : List Char) (hb : ∀ c ∈ b, c ≠ '&' ∧ c ≠ '<')
    (hd : ∀ c ∈ d, c ≠ '&' ∧ c ≠ '<') (movies : List Movie)
    (hmovs : ∀ m ∈ movies, ∀ ch ∈ m.slug.toList, ch ≠ '&' ∧ ch ≠ '<') :
    ∀ s o, runX ⟨.text, s, o⟩ ((movies.map (movieBlock b d)).flatten) =
      some ⟨.text, s, o ++ (movies.map movieOpens).flatten⟩ := by
  induction movies with
  | nil =>
    intro s o
    simp only [List.map_nil, List.flatten_nil, List.append_nil]
    rfl
  | cons m ms ih =>
    intro s o
    simp only [List.map_cons, List.flatten_cons]
    rw [runX_append,
      runX_movieBlock b d hb hd m (hmovs m (List.mem_cons_self m ms)),
      optSomeBind, ih (fun a ha => hmovs a (List.mem_cons_of_mem m ha))]
    simp [List.append_assoc]

/-- Names of all elements the generated sitemap opens, in document
order. -/
def sitemapOpens (cats : List Category) (movies : List Movie) :
    List (List Char) :=
  ["urlset".toList] ++ urlOpens ++
    (staticPages.map (fun _ => urlOpens)).flatten ++
    (cats.map (fun _ => urlOpens)).flatten ++
    (movies.map movieOpens).flatten

lemma buildSitemap_run (b d : List Char) (cats : List Category)
    (movies : List Movie) (hb : ∀ c ∈ b, c ≠ '&' ∧ c ≠ '<')
    (hd : ∀ c ∈ d, c ≠ '&' ∧ c ≠ '<')
    (hcats : ∀ c ∈ cats, ∀ ch ∈ c.slug.toList, ch ≠ '&' ∧ ch ≠ '<')
    (hmovs : ∀ m ∈ movies, ∀ ch ∈ m.slug.toList, ch ≠ '&' ∧ ch ≠ '<') :
    runX ⟨.text, [], []⟩ (buildSitemap b d cats movies) =
      some ⟨.text, [], sitemapOpens cats movies⟩ := by
  have hfooter : ∀ o, runX ⟨XMode.text, ["urlset".toList], o⟩
      "</urlset>".toList = some ⟨XMode.text, [], o⟩ := fun _ => rfl
  rw [buildSitemap, runX_append, runX_append, runX_append, runX_append,
    runX_append, runX_header, optSomeBind, runX_rootBlock b d hb hd,
    optSomeBind, runX_staticList b d hb hd, optSomeBind,
    runX_categoryList b d hb hd cats hcats, optSomeBind,
    runX_movieList b d hb hd movies hmovs, optSomeBind, hfooter]
  simp [sitemapOpens, List.append_assoc]

lemma buildSitemap_wellFormed (b d : List Char) (cats : List Category)
    (movies : List Movie) (hb : ∀ c ∈ b, c ≠ '&' ∧ c ≠ '<')
    (hd : ∀ c ∈ d, c ≠ '&' ∧ c ≠ '<')
    (hcats : ∀ c ∈ cats, ∀ ch ∈ c.slug.toList, ch ≠ '&' ∧ ch ≠ '<')
    (hmovs : ∀ m ∈ movies, ∀ ch ∈ m.slug.toList, ch ≠ '&' ∧ ch ≠ '<') :
    xmlWellFormed (buildSitemap b d cats movies) = true := by
  unfold xmlWellFormed
  rw [buildSitemap_run b d cats movies hb hd hcats hmovs]

lemma buildSitemap_xmlOpens (b d : List Char) (cats : List Category)
    (movies : List Movie) (hb : ∀ c ∈ b, c ≠ '&' ∧ c ≠ '<')
    (hd : ∀ c ∈ d, c ≠ '&' ∧ c ≠ '<')
    (hcats : ∀ c ∈ cats, ∀ ch ∈ c.slug.toList, ch ≠ '&' ∧ ch ≠ '<')
    (hmovs : ∀ m ∈ movies, ∀ ch ∈ m.slug.toList, ch ≠ '&' ∧ ch ≠ '<') :
    xmlOpens (buildSitemap b d cats movies) =
      some (sitemapOpens cats movies) := by
  unfold xmlOpens
  rw [buildSitemap_run b d cats movies hb hd hcats hmovs]

lemma count_constFlatten {α : Type} (l : List α) (x : List Char)
    (b : List (List Char)) :
    ((l.map (fun _ => b)).flatten).count x = l.length * b.count x := by
  induction l with
  | nil => simp
  | cons a l ih =>
    simp only [List.map_cons, List.flatten_cons, List.count_append, ih,
      List.length_cons]
    ring

lemma count_url_movieOpens (m : Movie) :
    (movieOpens m).count "url".toList = 1 := by
  by_cases ht : truthyStr m.thumbnail <;> simp [movieOpens, ht] <;> decide

lemma count_img_movieOpens (m : Movie) :
    (movieOpens m).count "image:image".toList =
      if truthyStr m.thumbnail then 1 else 0 := by
  by_cases ht : truthyStr m.thumbnail <;> simp [movieOpens, ht] <;> decide

lemma count_url_movieFlatten (movies : List Movie) :
    ((movies.map movieOpens).flatten).count "url".toList = movies.length := by
  induction movies with
  | nil => simp
  | cons m ms ih =>
    simp only [List.map_cons, List.flatten_cons, List.count_append, ih,
      count_url_movieOpens, List.length_cons]
    omega

lemma count_img_movieFlatten (movies : List Movie) :
    ((movies.map movieOpens).flatten).count "image:image".toList =
      (movies.filter (fun m => truthyStr m.thumbnail)).length := by
  induction movies with
  | nil => simp
  | cons m ms ih =>
    simp only [List.map_cons, List.flatten_cons, List.count_append, ih,
      count_img_movieOpens, List.filter_cons]
    by_cases ht : truthyStr m.thumbnail
    · simp [ht]
      omega
    · simp [ht]

/-- Counterexample to C4 as stated: a movie whose slug contains a raw `&`
(slug `a&b`) produces a sitemap document that does NOT parse as well-formed
XML — the slug is interpolated without escaping. -/
theorem sitemap_illFormed_dirty_slug_cex :
    xmlWellFormed (buildSitemap "https://filmyfly.work".toList
      "2026-10-11".toList []
      [{ id := 1, title := "x", slug := "a&b", thumbnail := none }]) =
      false := by decide

/-- C4 (amended): (1) for every movie with a truthy thumbnail whose title
contains one of the five characters `& < > " '`, the emitted movie entry
contains an image title that is exactly the title rendered
character-by-character with all five special characters escaped to XML
entities, and no raw `<ʼ, `>`, `"`, `'` remains in it; (2) the emitted
document parses as well-formed XML provided the strings interpolated
without escaping (base URL, date, category slugs, movie slugs) contain no
raw `&` or `<` — movie titles and thumbnails remain arbitrary. -/
theorem sitemap_escaping_and_wellFormed :
    (∀ (b d : List Char) (m : Movie), truthyStr m.thumbnail = true →
      (∃ ch ∈ m.title.toList,
        ch = '&' ∨ ch = '<' ∨ ch = '>' ∨ ch = quoteChar ∨ ch = aposChar) →
      (∃ pre post, movieBlock b d m =
        pre ++ "<image:title>".toList ++ escapeXml m.title.toList ++
          "</image:title>".toList ++ post) ∧
      escapeXml m.title.toList = m.title.toList.flatMap escChar ∧
      '<' ∉ escapeXml m.title.toList ∧ '>' ∉ escapeXml m.title.toList ∧
      quoteChar ∉ escapeXml m.title.toList ∧
      aposChar ∉ escapeXml m.title.toList) ∧
    (∀ (b d : List Char) (cats : List Category) (movies : List Movie),
      (∀ c ∈ b, c ≠ '&' ∧ c ≠ '<') → (∀ c ∈ d, c ≠ '&' ∧ c ≠ '<') →
      (∀ c ∈ cats, ∀ ch ∈ c.slug.toList, ch ≠ '&' ∧ ch ≠ '<') →
      (∀ m ∈ movies, ∀ ch ∈ m.slug.toList, ch ≠ '&' ∧ ch ≠ '<') →
      xmlWellFormed (buildSitemap b d cats movies) = true) := by
  constructor
  · intro b d m ht _
    refine ⟨⟨"  <url>\n    <loc>".toList ++ b ++ "/".toList ++
        m.slug.toList ++ "</loc>\n    <lastmod>".toList ++ d ++
        ("</lastmod>\n    <changefreq>weekly</changefreq>\n" ++
          "    <priority>0.8</priority>").toList ++
        "\n    <image:image>\n      <image:loc>".toList ++
        escapeXml (m.thumbnail.getD "").toList ++
        "</image:loc>\n      ".toList,
      "\n    </image:image>".toList ++ "\n  </url>\n".toList, ?_⟩,
      escapeXml_eq_flatMap m.title.toList,
      ((escapeXml_no_raw_and_identity m.title.toList).1).1,
      ((escapeXml_no_raw_and_identity m.title.toList).1).2.1,
      ((escapeXml_no_raw_and_identity m.title.toList).1).2.2.1,
      ((escapeXml_no_raw_and_identity m.title.toList).1).2.2.2⟩
    have hsplit2 : "</image:loc>\n      <image:title>".toList =
        "</image:loc>\n      ".toList ++ "<image:title>".toList := by decide
    have hsplit3 : "</image:title>\n    </image:image>".toList =
        "</image:title>".toList ++ "\n    </image:image>".toList := by decide
    rw [movieBlock, if_pos ht, imageBlock, hsplit2, hsplit3]
    simp [List.append_assoc]
  · intro b d cats movies hb hd hcats hmovs
    exact buildSitemap_wellFormed b d cats movies hb hd hcats hmovs

/-- Witness for the amended C4 at a concrete movie whose title holds all
five special characters, and a concrete well-formed document. -/
theorem sitemap_escaping_and_wellFormed_witness :
    escapeXml "a&b<c>d\"e'f".toList =
      "a&b<c>d\"e'f".toList.flatMap escChar ∧
    xmlWellFormed (buildSitemap "https://filmyfly.work".toList
      "2026-10-11".toList [] []) = true := by
  have h1 := sitemap_escaping_and_wellFormed.1 [] []
    { id := 1, title := "a&b<c>d\"e'f", slug := "s",
      thumbnail := some "t.jpg" }
    (by decide) ⟨'&', by decide, Or.inl rfl⟩
  have h2 := sitemap_escaping_and_wellFormed.2
    "https://filmyfly.work".toList "2026-10-11".toList [] []
    (by decide) (by decide) (by simp) (by simp)
  exact ⟨h1.2.1, h2⟩

/-- Counterexample to C5 as stated: a movie slug containing the text
`<url/>` (slug `a<url/>b`) yields a document that still parses but carries
9 `url` elements instead of the predicted 1 + 6 + 0 + 1 = 8 — raw slug
interpolation lets input data inject extra entries. -/
theorem sitemap_entry_count_cex :
    (xmlOpens (buildSitemap "https://filmyfly.work".toList
        "2026-10-11".toList []
        [{ id := 1, title := "x", slug := "a<url/>b", thumbnail := none }])).map
      (fun o => o.count "url".toList) = some 9 ∧ (9 : Nat) ≠ 1 + 6 + 0 + 1 := by
  exact ⟨by decide, by decide⟩

/-- C5 (amended): provided the raw-interpolated strings (base URL, date,
category slugs, movie slugs) contain no raw `&` or `<`, the generated
sitemap parses with exactly one `url` entry for the root, six for the
static pages, one per category and one per movie (total
1 + 6 + |categories| + |movies|), and exactly one `image:image` block per
movie with a non-empty thumbnail. -/
theorem sitemap_entry_counts (b d : List Char) (cats : List Category)
    (movies : List Movie)
    (hb : ∀ c ∈ b, c ≠ '&' ∧ c ≠ '<') (hd : ∀ c ∈ d, c ≠ '&' ∧ c ≠ '<')
    (hcats : ∀ c ∈ cats, ∀ ch ∈ c.slug.toList, ch ≠ '&' ∧ ch ≠ '<')
    (hmovs : ∀ m ∈ movies, ∀ ch ∈ m.slug.toList, ch ≠ '&' ∧ ch ≠ '<') :
    xmlOpens (buildSitemap b d cats movies) =
      some (sitemapOpens cats movies) ∧
    (sitemapOpens cats movies).count "url".toList =
      1 + 6 + cats.length + movies.length ∧
    (sitemapOpens cats movies).count "image:image".toList =
      (movies.filter (fun m => truthyStr m.thumbnail)).length := by
  refine ⟨buildSitemap_xmlOpens b d cats movies hb hd hcats hmovs, ?_, ?_⟩
  · simp only [sitemapOpens, List.count_append, count_constFlatten,
      count_url_movieFlatten]
    have e1 : (["urlset".toList] : List (List Char)).count "url".toList = 0 := by
      decide
    have e2 : urlOpens.count "url".toList = 1 := by decide
    have e3 : staticPages.length = 6 := rfl
    rw [e1, e2, e3]
    ring
  · simp only [sitemapOpens, List.count_append, count_constFlatten,
      count_img_movieFlatten]
    have e1 : (["urlset".toList] : List (List Char)).count
        "image:image".toList = 0 := by decide
    have e2 : urlOpens.count "image:image".toList = 0 := by decide
    rw [e1, e2]
    ring

/-- Witness for the amended C5 at a concrete catalog: one category and two
movies, one of which has a thumbnail. -/
theorem sitemap_entry_counts_witness :
    xmlOpens (buildSitemap "https://filmyfly.work".toList
        "2026-10-11".toList [{ id := 3, name := "Action", slug := "action" }]
        [{ id := 1, title := "A", slug := "a",
           thumbnail := some "https://img.example.com/a.jpg" },
         { id := 2, title := "B", slug := "b", thumbnail := none }]) =
      some (sitemapOpens [{ id := 3, name := "Action", slug := "action" }]
        [{ id := 1, title := "A", slug := "a",
           thumbnail := some "https://img.example.com/a.jpg" },
         { id := 2, title := "B", slug := "b", thumbnail := none }]) ∧
    (sitemapOpens [{ id := 3, name := "Action", slug := "action" }]
        [{ id := 1, title := "A", slug := "a",
           thumbnail := some "https://img.example.com/a.jpg" },
         { id := 2, title := "B", slug := "b", thumbnail := none }]).count
      "url".toList = 1 + 6 + 1 + 2 := by
  have h := sitemap_entry_counts "https://filmyfly.work".toList
    "2026-10-11".toList [{ id := 3, name := "Action", slug := "action" }]
    [{ id := 1, title := "A", slug := "a",
       thumbnail := some "https://img.example.com/a.jpg" },
     { id := 2, title := "B", slug := "b", thumbnail := none }]
    (by decide) (by decide) (by decide) (by decide)
  exact ⟨h.1, h.2.1⟩

/-- Counterexample to C7 as stated: a category envelope with
`success = true` but no `data` field leaves the JavaScript `categories`
binding `undefined`; `categories.forEach` then throws and the endpoint
surfaces an error instead of a 200 XML response. -/
theorem sitemap_get_error_cex :
    sitemapGET (fun _ => .ok { success := false }) (.ok { success := true })
      "https://filmyfly.work" "2026-10-11" 1 =
      some (.error "TypeError: categories.forEach is not a function") := rfl

/-- C7 (amended): whenever the pagination loop terminates within the given
fuel, the categories binding is defined (i.e. the category envelope, when
successful, carried a `data` list), and the interpolated strings are free
of raw `&`/`<`, the endpoint returns status 200 with content type
`application/xml; charset=utf-8` and cache control `public, max-age=3600`,
and its body is a well-formed (possibly near-empty) sitemap. -/
theorem sitemap_get_success
    (moviesApi : Nat → Except String (Envelope (List Movie)))
    (catApi : Except String (Envelope (List Category)))
    (siteUrl currentDate : String) (fuel : Nat) (d : SitemapData)
    (cats : List Category)
    (hrun : fetchSitemapData moviesApi catApi fuel = some d)
    (hcats : d.categories = some cats)
    (hb : ∀ c ∈ (stripTrailingSlash siteUrl).toList, c ≠ '&' ∧ c ≠ '<')
    (hdate : ∀ c ∈ currentDate.toList, c ≠ '&' ∧ c ≠ '<')
    (hcatslug : ∀ c ∈ cats, ∀ ch ∈ c.slug.toList, ch ≠ '&' ∧ ch ≠ '<')
    (hmovslug : ∀ m ∈ d.movies, ∀ ch ∈ m.slug.toList, ch ≠ '&' ∧ ch ≠ '<') :
    sitemapGET moviesApi catApi siteUrl currentDate fuel =
      some (.ok
        { status := 200
          contentType := "application/xml; charset=utf-8"
          cacheControl := "public, max-age=3600"
          body := buildSitemap (stripTrailingSlash siteUrl).toList
            currentDate.toList cats d.movies }) ∧
    xmlWellFormed (buildSitemap (stripTrailingSlash siteUrl).toList
      currentDate.toList cats d.movies) = true := by
  constructor
  · simp [sitemapGET, hrun, hcats]
  · exact buildSitemap_wellFormed _ _ _ _ hb hdate hcatslug hmovslug

/-- Witness for the amended C7: both fetches return unsuccessful envelopes,
and the endpoint still produces a 200 response with a well-formed
near-empty sitemap. -/
theorem sitemap_get_success_witness :
    sitemapGET (fun _ => .ok { success := false }) (.ok { success := false })
      "https://filmyfly.work" "2026-10-11" 1 =
      some (.ok
        { status := 200
          contentType := "application/xml; charset=utf-8"
          cacheControl := "public, max-age=3600"
          body := buildSitemap
            (stripTrailingSlash "https://filmyfly.work").toList
            "2026-10-11".toList [] [] }) ∧
    xmlWellFormed (buildSitemap
      (stripTrailingSlash "https://filmyfly.work").toList
      "2026-10-11".toList [] []) = true :=
  sitemap_get_success (fun _ => .ok { success := false })
    (.ok { success := false }) "https://filmyfly.work" "2026-10-11" 1
    { movies := [], categories := some [] } [] rfl rfl
    (by decide) (by decide) (by simp) (by simp)

/-! ## Typed API client (`src/lib/api.ts`)

Each operation performs exactly one `fetch` of its URL and returns
`await res.json()` unchanged.  An HTTP exchange is modelled as
`Except String (HttpResp α)`: `.error msg` is a thrown network fault, and
a delivered response carries its numeric status and the outcome of
`res.json()` (which itself may throw on malformed JSON).  Only
`searchMovies` inspects `res.ok` or catches anything. -/

/-- A delivered HTTP response: status code and the outcome of
`res.json()`. -/
structure HttpResp (α : Type) where
  status : Nat
  json : Except String α

/-- `Response.ok` of the Fetch API: status in 200–299. -/
def respOk (status : Nat) : Bool :=
  200 ≤ status && status ≤ 299

/-- The default `API_BASE` (`PUBLIC_API_URL` unset). -/
def apiBase : String := "http://localhost:8080/api"

/-- Payload of `/home`. -/
structure HomeData where
  trendingMovies : List Movie
  recentMovies : List Movie
  categories : List Category
  pagination : Pagination

/-- Payload of `/movies/{slug}`. -/
structure MovieDetail where
  movie : Movie
  relatedMovies : List Movie
  downloadRedirectUrl : String

/-- Payload of `/categories/{slug}`. -/
structure CategoryDetail where
  category : Category
  movies : List Movie
  pagination : Pagination

/-- Payload of `/search`. -/
structure SearchData where
  query : String
  movies : List Movie
  pagination : Pagination

/-- Payload of `/static-pages/{slug}`. -/
structure StaticPage where
  id : Nat
  title : String
  slug : String
  content : String
  metaTitle : Option String := none
  metaDescription : Option String := none
  metaKeywords : Option String := none
  isPublished : Bool
  createdAt : String
  updatedAt : String

/-- Payload of `/astro-settings`. -/
structure PublicSettings where
  downloadRedirectUrl : Option String := none
  googleTagManagerHead : Option String := none
  googleTagManagerBody : Option String := none
  googleAnalytics : Option String := none
  googleSearchConsole : Option String := none
  adsenseCode : Option String := none
  adsteraCode : Option String := none
  siteUrl : Option String := none
  siteName : Option String := none
  telegramLink : Option String := none
  facebookLink : Option String := none
  twitterLink : Option String := none
  instagramLink : Option String := none

/-- URLs requested by each unguarded operation (exactly one GET each). -/
def getHomePageDataRequests (page : Nat) : List String :=
  [apiBase ++ "/home?page=" ++ Nat.repr page]

def getMoviesRequests (page limit : Nat) : List String :=
  [apiBase ++ "/movies?page=" ++ Nat.repr page ++ "&limit=" ++ Nat.repr limit]

def getTrendingMoviesRequests : List String :=
  [apiBase ++ "/movies/trending"]

def getMovieBySlugRequests (slug : String) : List String :=
  [apiBase ++ "/movies/" ++ slug]

def getCategoriesRequests : List String :=
  [apiBase ++ "/categories"]

def getCategoryBySlugRequests (slug : String) (page limit : Nat) : List String :=
  [apiBase ++ "/categories/" ++ slug ++ "?page=" ++ Nat.repr page ++
    "&limit=" ++ Nat.repr limit]

def getStaticPageRequests (slug : String) : List String :=
  [apiBase ++ "/static-pages/" ++ slug]

def getPublicSettingsRequests : List String :=
  [apiBase ++ "/astro-settings"]

/-- `getHomePageData`: pass-through deserialization, no guard. -/
def getHomePageData (r : Except String (HttpResp (Envelope HomeData))) :
    Except String (Envelope HomeData) :=
  match r with
  | .error e => .error e
  | .ok resp => resp.json

/-- `getMovies`: pass-through deserialization, no guard. -/
def getMovies (r : Except String (HttpResp (Envelope (List Movie)))) :
    Except String (Envelope (List Movie)) :=
  match r with
  | .error e => .error e
  | .ok resp => resp.json

/-- `getTrendingMovies`: pass-through deserialization, no guard. -/
def getTrendingMovies (r : Except String (HttpResp (Envelope (List Movie)))) :
    Except String (Envelope (List Movie)) :=
  match r with
  | .error e => .error e
  | .ok resp => resp.json

/-- `getMovieBySlug`: pass-through deserialization, no guard. -/
def getMovieBySlug (r : Except String (HttpResp (Envelope MovieDetail))) :
    Except String (Envelope MovieDetail) :=
  match r with
  | .error e => .error e
  | .ok resp => resp.json

/-- `getCategories`: pass-through deserialization, no guard. -/
def getCategories (r : Except String (HttpResp (Envelope (List Category)))) :
    Except String (Envelope (List Category)) :=
  match r with
  | .error e => .error e
  | .ok resp => resp.json

/-- `getCategoryBySlug`: pass-through deserialization, no guard. -/
def getCategoryBySlug (r : Except String (HttpResp (Envelope CategoryDetail))) :
    Except String (Envelope CategoryDetail) :=
  match r with
  | .error e => .error e
  | .ok resp => resp.json

/-- `getStaticPage`: pass-through deserialization, no guard. -/
def getStaticPage (r : Except String (HttpResp (Envelope StaticPage))) :
    Except String (Envelope StaticPage) :=
  match r with
  | .error e => .error e
  | .ok resp => resp.json

/-- `getPublicSettings`: pass-through deserialization, no guard. -/
def getPublicSettings (r : Except String (HttpResp (Envelope PublicSettings))) :
    Except String (Envelope PublicSettings) :=
  match r with
  | .error e => .error e
  | .ok resp => resp.json

/-- `searchMovies`: the one guarded operation.

```js
try {
    const res = await fetch(`${API_BASE}/search?q=${encodeURIComponent(query)}&page=${page}&limit=${limit}`);
    if (!res.ok) { throw new Error(`Search API returned ${res.status}`); }
    const json = await res.json();
    return json;
} catch (error) {
    return { success: false,
             error: error instanceof Error ? error.message : 'Failed to search movies' };
}
```
It performs a single fetch; any fault (network, thrown status error,
malformed JSON) is converted into a local `{success:false, error}`
result. -/
def searchMovies (r : Except String (HttpResp (Envelope SearchData))) :
    Envelope SearchData :=
  match r with
  | .error msg => { success := false, error := some msg }
  | .ok resp =>
    if respOk resp.status then
      match resp.json with
      | .error msg => { success := false, error := some msg }
      | .ok env => env
    else
      { success := false
        error := some ("Search API returned " ++ Nat.repr resp.status) }

/-- The single URL requested by `searchMovies` (the query is
percent-encoded; the encoding function itself is runtime library code and
is kept abstract). -/
def searchMoviesRequests (encodedQuery : String) (page limit : Nat) :
    List String :=
  [apiBase ++ "/search?q=" ++ encodedQuery ++ "&page=" ++ Nat.repr page ++
    "&limit=" ++ Nat.repr limit]

/-- C3: for every delivered response with a non-2xx status, `searchMovies`
returns the local failure result `{success:false, error:"Search API
returned <status>"}` instead of propagating a fault, and its request list
has length one — there is no further call after the failing one. -/
theorem searchMovies_guards_http_error
    (resp : HttpResp (Envelope SearchData))
    (h : respOk resp.status = false) :
    searchMovies (.ok resp) =
      { success := false
        error := some ("Search API returned " ++ Nat.repr resp.status) } ∧
    ∀ (q : String) (page limit : Nat),
      (searchMoviesRequests q page limit).length = 1 := by
  constructor
  · simp [searchMovies, h]
  · intro q page limit
    rfl

/-- Witness for C3 at a concrete 404 response. -/
theorem searchMovies_guards_http_error_witness :
    searchMovies (.ok { status := 404, json := .error "unreachable" }) =
      { success := false, error := some "Search API returned 404" } :=
  (searchMovies_guards_http_error
    { status := 404, json := .error "unreachable" } rfl).1

/-- C8: each of the eight unguarded operations issues exactly one GET and
is pass-through: a network fault propagates unhandled, and a delivered
response's `json` outcome is returned unchanged — malformed JSON
propagates as a fault, a well-formed envelope is returned as-is with the
HTTP status never inspected. -/
theorem client_operations_pass_through :
    (∀ page, (getHomePageDataRequests page).length = 1) ∧
    (∀ r, getHomePageData (.ok r) = r.json) ∧
    (∀ e, getHomePageData (.error e) = .error e) ∧
    (∀ page limit, (getMoviesRequests page limit).length = 1) ∧
    (∀ r, getMovies (.ok r) = r.json) ∧
    (∀ e, getMovies (.error e) = .error e) ∧
    (getTrendingMoviesRequests.length = 1) ∧
    (∀ r, getTrendingMovies (.ok r) = r.json) ∧
    (∀ e, getTrendingMovies (.error e) = .error e) ∧
    (∀ slug, (getMovieBySlugRequests slug).length = 1) ∧
    (∀ r, getMovieBySlug (.ok r) = r.json) ∧
    (∀ e, getMovieBySlug (.error e) = .error e) ∧
    (getCategoriesRequests.length = 1) ∧
    (∀ r, getCategories (.ok r) = r.json) ∧
    (∀ e, getCategories (.error e) = .error e) ∧
    (∀ slug page limit, (getCategoryBySlugRequests slug page limit).length = 1) ∧
    (∀ r, getCategoryBySlug (.ok r) = r.json) ∧
    (∀ e, getCategoryBySlug (.error e) = .error e) ∧
    (∀ slug, (getStaticPageRequests slug).length = 1) ∧
    (∀ r, getStaticPage (.ok r) = r.json) ∧
    (∀ e, getStaticPage (.error e) = .error e) ∧
    (getPublicSettingsRequests.length = 1) ∧
    (∀ r, getPublicSettings (.ok r) = r.json) ∧
    (∀ e, getPublicSettings (.error e) = .error e) :=
  ⟨fun _ => rfl, fun _ => rfl, fun _ => rfl, fun _ _ => rfl, fun _ => rfl,
   fun _ => rfl, rfl, fun _ => rfl, fun _ => rfl, fun _ => rfl, fun _ => rfl,
   fun _ => rfl, rfl, fun _ => rfl, fun _ => rfl, fun _ _ _ => rfl,
   fun _ => rfl, fun _ => rfl, fun _ => rfl, fun _ => rfl, fun _ => rfl,
   rfl, fun _ => rfl, fun _ => rfl⟩
